import Mathlib

/-!
Verification of the invoice computation and numbering core of the
invoice-maker application.

The model is a shallow embedding of:
* the SQL function `public.get_next_invoice_number` (migration files), including
  the PostgreSQL semantics of `LPAD(text, 4, '0')`, which right-truncates
  strings longer than the target width;
* the persistence schema of `public.invoices` (base migration), in particular
  the `UNIQUE(organization_id, invoice_number)` constraint and the
  `discount_amount DEFAULT 0` column;
* the client mutation functions `useCreateInvoice`, `useUpdateInvoice`,
  `useUpdateInvoiceStatus`, `useDeleteInvoice` (hooks file) and the pure
  calculator `calculateItemAmount` / `calculateTotals` (CreateInvoice page).

Numbers that the source handles as SQL `NUMERIC` / JS numbers are modelled as
rationals; SQL `INTEGER` counters as naturals; nullable columns as `Option`.
-/

/-- Decimal digit to character, as produced by the textual cast of an integer. -/
def digitChar (d : Nat) : Char :=
  match d with
  | 0 => '0' | 1 => '1' | 2 => '2' | 3 => '3' | 4 => '4'
  | 5 => '5' | 6 => '6' | 7 => '7' | 8 => '8' | 9 => '9'
  | _ => '?'

/-- Big-endian decimal digit list of a natural number (model of the SQL cast
of a non-negative integer to text). -/
def natDigits (n : Nat) : List Char :=
  if _h : n < 10 then [digitChar n]
  else natDigits (n / 10) ++ [digitChar (n % 10)]
termination_by n
decreasing_by
  exact Nat.div_lt_self (by omega) (by omega)

/-- Model of the SQL cast of a non-negative integer to `text`. -/
def natToString (n : Nat) : String :=
  ⟨natDigits n⟩

/-- PostgreSQL `LPAD` on character lists: pad on the left with the fill
character up to the target length, and TRUNCATE on the right when the input
is already longer than the target length. -/
def lpadList (s : List Char) (len : Nat) (fill : Char) : List Char :=
  if len ≤ s.length then s.take len
  else List.replicate (len - s.length) fill ++ s

/-- PostgreSQL `LPAD(string, length, fill)`. -/
def lpad (s : String) (len : Nat) (fill : Char) : String :=
  ⟨lpadList s.data len fill⟩

/-- The character list of the numeric suffix produced by the allocator for
counter value `n`: `LPAD(n::text, 4, fill 0)`. -/
def invSuffix (n : Nat) : List Char :=
  lpadList (natDigits n) 4 '0'

/-- The formatted invoice number for counter value `n`, as returned by
`get_next_invoice_number`. -/
def invoiceNumberOf (n : Nat) : String :=
  "INV-" ++ lpad (natToString n) 4 '0'

/-- Numeric value of a list of decimal digit characters (most significant
first); leading zeros do not contribute. -/
def digitsVal (s : List Char) : Nat :=
  s.foldl (fun a c => 10 * a + (c.toNat - 48)) 0

/-- Numeric value of the suffix of the formatted invoice number for counter
value `n`. -/
def numericSuffix (n : Nat) : Nat :=
  digitsVal (invSuffix n)

/-- Errors surfaced by the persistence layer. `notFound` corresponds to a
single-row read or update matching no row, `conflict` to a uniqueness
constraint violation, `notNullViolation` to inserting NULL into a
NOT NULL column. -/
inductive PgError where
  | notFound
  | conflict
  | notNullViolation
deriving DecidableEq

/-- Invoice status enum of the schema. -/
inductive InvoiceStatus where
  | draft
  | sent
  | paid
  | overdue
  | cancelled
deriving DecidableEq

/-- Row of `public.organizations` restricted to the columns the core touches.
The counter column is nullable with default 0. -/
structure OrgRow where
  id : Nat
  invoice_counter : Option Nat
deriving DecidableEq

/-- Row of `public.invoices` restricted to the columns the core touches. -/
structure InvoiceRow where
  id : Nat
  organization_id : Nat
  customer_id : Option Nat
  customer_name : Option String
  customer_phone : Option String
  customer_email : Option String
  customer_address : Option String
  invoice_number : String
  status : InvoiceStatus
  issue_date : String
  due_date : String
  subtotal : ℚ
  tax_amount : ℚ
  discount_amount : ℚ
  total_amount : ℚ
  notes : Option String
  terms : Option String
  created_by : Option Nat
deriving DecidableEq

/-- Row of `public.invoice_items`. -/
structure ItemRow where
  invoice_id : Nat
  description : String
  quantity : ℚ
  unit_price : ℚ
  tax_rate : ℚ
  amount : ℚ
deriving DecidableEq

/-- The persisted state: organizations, invoices and items, plus an id
source standing in for `gen_random_uuid()`. -/
structure Db where
  orgs : List OrgRow
  invoices : List InvoiceRow
  invoice_items : List ItemRow
  next_id : Nat
deriving DecidableEq

/-- The counter update applied by `get_next_invoice_number` to the rows
matched by `WHERE id = org_id`: `invoice_counter := COALESCE(invoice_counter, 0) + 1`. -/
def bumpOrg (orgId : Nat) (o : OrgRow) : OrgRow :=
  if o.id == orgId then { o with invoice_counter := some (o.invoice_counter.getD 0 + 1) } else o

/-- Effective counter of an organization (`COALESCE(invoice_counter, 0)`),
`none` when the organization row does not exist. -/
def orgCounter (db : Db) (orgId : Nat) : Option Nat :=
  (db.orgs.find? (fun o => o.id == orgId)).map (fun o => o.invoice_counter.getD 0)

/-- Model of the SQL function `public.get_next_invoice_number(org_id)`:
the UPDATE increments the counter of the matching organization row and
returns it into `next_num` (which stays NULL when no row matches); the
function then returns `INV- || LPAD(next_num::text, 4, fill 0)`, which is
NULL when `next_num` is NULL. The plpgsql body has no RAISE: it never
produces an error. -/
def get_next_invoice_number (db : Db) (orgId : Nat) :
    Except PgError (Option String) × Db :=
  let next_num : Option Nat :=
    (db.orgs.find? (fun o => o.id == orgId)).map (fun o => o.invoice_counter.getD 0 + 1)
  (Except.ok (next_num.map invoiceNumberOf),
   { db with orgs := db.orgs.map (bumpOrg orgId) })

/-- Line-item input as submitted to the create and update mutations. -/
structure ItemInput where
  description : String
  quantity : ℚ
  unit_price : ℚ
  tax_rate : ℚ
deriving DecidableEq

/-- The totals loop of `useCreateInvoice` and `useUpdateInvoice`: one pass
accumulating `subtotal += quantity * unit_price` and
`taxAmount += itemSubtotal * (tax_rate / 100)`. -/
def calcTotals (items : List ItemInput) : ℚ × ℚ :=
  items.foldl
    (fun acc it =>
      let itemSubtotal := it.quantity * it.unit_price
      let itemTax := itemSubtotal * (it.tax_rate / 100)
      (acc.1 + itemSubtotal, acc.2 + itemTax))
    (0, 0)

/-- The per-item amount attached by the same loop:
`amount = itemSubtotal + itemTax`. -/
def itemsWithAmounts (items : List ItemInput) : List (ItemInput × ℚ) :=
  items.map (fun it =>
    let itemSubtotal := it.quantity * it.unit_price
    let itemTax := itemSubtotal * (it.tax_rate / 100)
    (it, itemSubtotal + itemTax))

/-- The pure helper `calculateItemAmount` of the create and edit pages. -/
def calculateItemAmount (quantity unitPrice taxRate : ℚ) : ℚ :=
  let subtotal := quantity * unitPrice
  let tax := subtotal * (taxRate / 100)
  subtotal + tax

/-- Payload of the insert into `public.invoices` performed by
`useCreateInvoice`. The invoice number comes from the rpc and may be NULL;
`discount_amount` is not part of the payload (the column default 0 applies). -/
structure InvoiceInsert where
  organization_id : Nat
  customer_id : Option Nat
  customer_name : Option String
  customer_phone : Option String
  customer_email : Option String
  customer_address : Option String
  invoice_number : Option String
  issue_date : String
  due_date : String
  subtotal : ℚ
  tax_amount : ℚ
  total_amount : ℚ
  notes : Option String
  terms : Option String
  created_by : Option Nat
  status : InvoiceStatus
deriving DecidableEq

/-- Insert into `public.invoices`, enforcing the schema constraints:
`invoice_number` is NOT NULL and `UNIQUE(organization_id, invoice_number)`
(base migration); `discount_amount` takes its column default 0. -/
def insertInvoice (db : Db) (ins : InvoiceInsert) :
    Except PgError (InvoiceRow × Db) :=
  match ins.invoice_number with
  | none => Except.error PgError.notNullViolation
  | some num =>
    if db.invoices.any (fun r =>
        r.organization_id == ins.organization_id && r.invoice_number == num) then
      Except.error PgError.conflict
    else
      let row : InvoiceRow :=
        { id := db.next_id
          organization_id := ins.organization_id
          customer_id := ins.customer_id
          customer_name := ins.customer_name
          customer_phone := ins.customer_phone
          customer_email := ins.customer_email
          customer_address := ins.customer_address
          invoice_number := num
          status := ins.status
          issue_date := ins.issue_date
          due_date := ins.due_date
          subtotal := ins.subtotal
          tax_amount := ins.tax_amount
          discount_amount := 0
          total_amount := ins.total_amount
          notes := ins.notes
          terms := ins.terms
          created_by := ins.created_by }
      Except.ok (row, { db with invoices := db.invoices ++ [row], next_id := db.next_id + 1 })

/-- Header fields of the `useCreateInvoice` mutation input. -/
structure InvoiceInput where
  customer_id : Option Nat
  customer_name : Option String
  customer_phone : Option String
  customer_email : Option String
  customer_address : Option String
  issue_date : String
  due_date : String
  notes : Option String
  terms : Option String
deriving DecidableEq

/-- Model of the `useCreateInvoice` mutation: allocate the next invoice
number via the rpc, compute the totals in one pass over the items, insert
the invoice header with status draft, then insert the item rows carrying
the per-item amounts. A failing insert leaves the already-bumped counter
in place. -/
def createInvoice (db : Db) (orgId userId : Nat) (invoice : InvoiceInput)
    (items : List ItemInput) : Except PgError InvoiceRow × Db :=
  let alloc := get_next_invoice_number db orgId
  match alloc.1 with
  | Except.error e => (Except.error e, alloc.2)
  | Except.ok invoiceNumber =>
    let totals := calcTotals items
    let subtotal := totals.1
    let taxAmount := totals.2
    let totalAmount := subtotal + taxAmount
    let ins : InvoiceInsert :=
      { organization_id := orgId
        customer_id := invoice.customer_id
        customer_name := invoice.customer_name
        customer_phone := invoice.customer_phone
        customer_email := invoice.customer_email
        customer_address := invoice.customer_address
        invoice_number := invoiceNumber
        issue_date := invoice.issue_date
        due_date := invoice.due_date
        subtotal := subtotal
        tax_amount := taxAmount
        total_amount := totalAmount
        notes := invoice.notes
        terms := invoice.terms
        created_by := some userId
        status := InvoiceStatus.draft }
    match insertInvoice alloc.2 ins with
    | Except.error e => (Except.error e, alloc.2)
    | Except.ok (row, db2) =>
      let newItems := (itemsWithAmounts items).map (fun p =>
        { invoice_id := row.id
          description := p.1.description
          quantity := p.1.quantity
          unit_price := p.1.unit_price
          tax_rate := p.1.tax_rate
          amount := p.2 : ItemRow })
      (Except.ok row, { db2 with invoice_items := db2.invoice_items ++ newItems })

/-- Header fields of the `useUpdateInvoice` mutation input. All fields are
optional in the payload: an absent field (outer `none`) is not written by
the UPDATE. -/
structure InvoiceUpdateInput where
  customer_name : Option (Option String)
  customer_phone : Option (Option String)
  customer_email : Option (Option String)
  customer_address : Option (Option String)
  issue_date : Option String
  due_date : Option String
  notes : Option (Option String)
  terms : Option (Option String)
deriving DecidableEq

/-- The UPDATE of `useUpdateInvoice` applied to a matched row: spread of the
provided header fields plus the recomputed `subtotal`, `tax_amount` and
`total_amount`. The id, organization, invoice number, status, discount and
customer reference columns are not part of the payload. -/
def applyInvoiceUpdate (r : InvoiceRow) (u : InvoiceUpdateInput)
    (subtotal taxAmount totalAmount : ℚ) : InvoiceRow :=
  { r with
    customer_name := u.customer_name.getD r.customer_name
    customer_phone := u.customer_phone.getD r.customer_phone
    customer_email := u.customer_email.getD r.customer_email
    customer_address := u.customer_address.getD r.customer_address
    issue_date := u.issue_date.getD r.issue_date
    due_date := u.due_date.getD r.due_date
    notes := u.notes.getD r.notes
    terms := u.terms.getD r.terms
    subtotal := subtotal
    tax_amount := taxAmount
    total_amount := totalAmount }

/-- Model of the `useUpdateInvoice` mutation: recompute totals, update the
header row matched by id (erroring like `.single()` when none matches, with
no state change), then delete all items of the invoice and re-insert the
submitted ones. -/
def updateInvoice (db : Db) (id : Nat) (invoice : InvoiceUpdateInput)
    (items : List ItemInput) : Except PgError InvoiceRow × Db :=
  let totals := calcTotals items
  let subtotal := totals.1
  let taxAmount := totals.2
  let totalAmount := subtotal + taxAmount
  match db.invoices.find? (fun r => r.id == id) with
  | none => (Except.error PgError.notFound, db)
  | some old =>
    let updated := applyInvoiceUpdate old invoice subtotal taxAmount totalAmount
    let newItems := (itemsWithAmounts items).map (fun p =>
      { invoice_id := id
        description := p.1.description
        quantity := p.1.quantity
        unit_price := p.1.unit_price
        tax_rate := p.1.tax_rate
        amount := p.2 : ItemRow })
    (Except.ok updated,
     { db with
       invoices := db.invoices.map (fun r =>
         if r.id == id then applyInvoiceUpdate r invoice subtotal taxAmount totalAmount else r)
       invoice_items :=
         db.invoice_items.filter (fun it => it.invoice_id != id) ++ newItems })

/-- Model of the `useUpdateInvoiceStatus` mutation: set the status column of
the row matched by id, unconditionally on the current status; erroring like
`.single()` when no row matches. -/
def setInvoiceStatus (db : Db) (id : Nat) (status : InvoiceStatus) :
    Except PgError InvoiceRow × Db :=
  match db.invoices.find? (fun r => r.id == id) with
  | none => (Except.error PgError.notFound, db)
  | some old =>
    (Except.ok { old with status := status },
     { db with invoices := db.invoices.map (fun r =>
         if r.id == id then { r with status := status } else r) })

/-- Model of the `useDeleteInvoice` mutation: delete the invoice row; the
`ON DELETE CASCADE` of `invoice_items.invoice_id` removes its items. -/
def deleteInvoice (db : Db) (id : Nat) : Except PgError Unit × Db :=
  (Except.ok (),
   { db with
     invoices := db.invoices.filter (fun r => r.id != id)
     invoice_items := db.invoice_items.filter (fun it => it.invoice_id != id) })

/-- The operations the core exposes over the persisted state. -/
inductive Op where
  | create (orgId userId : Nat) (invoice : InvoiceInput) (items : List ItemInput)
  | update (id : Nat) (invoice : InvoiceUpdateInput) (items : List ItemInput)
  | setStatus (id : Nat) (status : InvoiceStatus)
  | delete (id : Nat)
  | allocate (orgId : Nat)
deriving DecidableEq

/-- State transition of one operation (the resulting state, errors
discarded). -/
def step (db : Db) : Op → Db
  | Op.create orgId userId invoice items => (createInvoice db orgId userId invoice items).2
  | Op.update id invoice items => (updateInvoice db id invoice items).2
  | Op.setStatus id status => (setInvoiceStatus db id status).2
  | Op.delete id => (deleteInvoice db id).2
  | Op.allocate orgId => (get_next_invoice_number db orgId).2

/-- Run a list of operations. -/
def run (db : Db) (ops : List Op) : Db :=
  ops.foldl step db

/-- Sequential allocation: `N` successive calls of the allocator for one
organization, returning the list of results and the final state. -/
def allocRun (db : Db) (orgId : Nat) : Nat → List (Except PgError (Option String)) × Db
  | 0 => ([], db)
  | Nat.succ n =>
    let p := get_next_invoice_number db orgId
    let q := allocRun p.2 orgId n
    (p.1 :: q.1, q.2)

/-- The financial invariant of the invoice header: `discount_amount` is zero
and `total_amount = subtotal + tax_amount - discount_amount` on every stored
invoice. -/
def InvariantTotals (db : Db) : Prop :=
  ∀ r ∈ db.invoices, r.discount_amount = 0
    ∧ r.total_amount = r.subtotal + r.tax_amount - r.discount_amount

/-- The item list of the worked example of the spec: quantity 2 at unit
price 100 with tax rate 18, and quantity 1 at unit price 50 with tax
rate 0. -/
def exampleItems : List ItemInput :=
  [{ description := "Item A", quantity := 2, unit_price := 100, tax_rate := 18 },
   { description := "Item B", quantity := 1, unit_price := 50, tax_rate := 0 }]

/-- A single organization with counter 0 and no invoices. -/
def dbC1 : Db :=
  { orgs := [{ id := 1, invoice_counter := some 0 }]
    invoices := []
    invoice_items := []
    next_id := 10 }

/-- Two organizations, both with counter 0. -/
def dbC1w : Db :=
  { orgs := [{ id := 1, invoice_counter := some 0 }, { id := 2, invoice_counter := some 0 }]
    invoices := []
    invoice_items := []
    next_id := 10 }

/-- A single organization whose counter has reached 9999. -/
def dbC3 : Db :=
  { orgs := [{ id := 1, invoice_counter := some 9999 }]
    invoices := []
    invoice_items := []
    next_id := 10 }

/-- A state containing only the organization with id 1; id 77 is absent. -/
def dbC4 : Db :=
  { orgs := [{ id := 1, invoice_counter := some 0 }]
    invoices := []
    invoice_items := []
    next_id := 10 }

/-- A state containing only the organization with id 2. -/
def dbC4w : Db :=
  { orgs := [{ id := 2, invoice_counter := some 5 }]
    invoices := []
    invoice_items := []
    next_id := 10 }

/-- A stored invoice in the paid state. -/
def invPaid : InvoiceRow :=
  { id := 1
    organization_id := 1
    customer_id := none
    customer_name := some "Acme"
    customer_phone := none
    customer_email := none
    customer_address := none
    invoice_number := "INV-0001"
    status := InvoiceStatus.paid
    issue_date := "2026-01-01"
    due_date := "2026-02-01"
    subtotal := 100
    tax_amount := 18
    discount_amount := 0
    total_amount := 118
    notes := none
    terms := none
    created_by := none }

/-- A stored invoice in the cancelled state. -/
def invCancelled : InvoiceRow :=
  { invPaid with id := 2, invoice_number := "INV-0002", status := InvoiceStatus.cancelled }

/-- A state holding one paid and one cancelled invoice. -/
def dbC5 : Db :=
  { orgs := [{ id := 1, invoice_counter := some 2 }]
    invoices := [invPaid, invCancelled]
    invoice_items := []
    next_id := 10 }

/-- A state holding one paid invoice. -/
def dbC5w : Db :=
  { orgs := [{ id := 1, invoice_counter := some 1 }]
    invoices := [invPaid]
    invoice_items := []
    next_id := 10 }

/-- One organization, no invoices yet. -/
def dbC7w : Db :=
  { orgs := [{ id := 1, invoice_counter := some 0 }]
    invoices := []
    invoice_items := []
    next_id := 10 }

/-- Header input of a creation request. -/
def inputC7 : InvoiceInput :=
  { customer_id := none
    customer_name := some "Acme"
    customer_phone := none
    customer_email := none
    customer_address := none
    issue_date := "2026-01-01"
    due_date := "2026-02-01"
    notes := none
    terms := none }

/-- A state already holding the invoice number INV-0001 for organization 1. -/
def dbC9w : Db :=
  { orgs := [{ id := 1, invoice_counter := some 1 }]
    invoices := [invPaid]
    invoice_items := []
    next_id := 10 }

/-- An insert payload that collides with the invoice number INV-0001 already
stored for organization 1. -/
def insC9 : InvoiceInsert :=
  { organization_id := 1
    customer_id := none
    customer_name := some "Beta"
    customer_phone := none
    customer_email := none
    customer_address := none
    invoice_number := some "INV-0001"
    issue_date := "2026-01-05"
    due_date := "2026-02-05"
    subtotal := 50
    tax_amount := 0
    total_amount := 50
    notes := none
    terms := none
    created_by := none
    status := InvoiceStatus.draft }

/-- A single organization whose counter has reached 999. -/
def dbC10 : Db :=
  { orgs := [{ id := 1, invoice_counter := some 999 }]
    invoices := []
    invoice_items := []
    next_id := 10 }

/-- One organization with counter 5 and a stored invoice with id 3. -/
def dbC10w : Db :=
  { orgs := [{ id := 1, invoice_counter := some 5 }]
    invoices := [{ invPaid with id := 3, invoice_number := "INV-0003" }]
    invoice_items := []
    next_id := 10 }

/-- An update payload providing no header fields. -/
def updNone : InvoiceUpdateInput :=
  { customer_name := none
    customer_phone := none
    customer_email := none
    customer_address := none
    issue_date := none
    due_date := none
    notes := none
    terms := none }

/-- A state holding one invoice to be updated. -/
def dbC2u : Db :=
  { orgs := []
    invoices := [invPaid]
    invoice_items := []
    next_id := 30 }

/-- A state with one organization at counter 0, ready for a creation. -/
def dbC2c : Db :=
  { orgs := [{ id := 1, invoice_counter := some 0 }]
    invoices := []
    invoice_items := []
    next_id := 40 }

/-- The row produced by updating the stored invoice with the example
items. -/
def rowC2u : InvoiceRow :=
  applyInvoiceUpdate invPaid updNone (calcTotals exampleItems).1 (calcTotals exampleItems).2
    ((calcTotals exampleItems).1 + (calcTotals exampleItems).2)

/-- The row produced by creating an invoice from the example items. -/
def rowC2c : InvoiceRow :=
  { id := 40
    organization_id := 1
    customer_id := none
    customer_name := some "Acme"
    customer_phone := none
    customer_email := none
    customer_address := none
    invoice_number := invoiceNumberOf 1
    status := InvoiceStatus.draft
    issue_date := "2026-01-01"
    due_date := "2026-02-01"
    subtotal := (calcTotals exampleItems).1
    tax_amount := (calcTotals exampleItems).2
    discount_amount := 0
    total_amount := (calcTotals exampleItems).1 + (calcTotals exampleItems).2
    notes := none
    terms := none
    created_by := some 9 }

theorem digitChar_toNat (d : Nat) (h : d < 10) : (digitChar d).toNat - 48 = d := by
  interval_cases d <;> decide

theorem digitsVal_go (s : List Char) (a : Nat) :
    s.foldl (fun a c => 10 * a + (c.toNat - 48)) a =
      a * 10 ^ s.length + digitsVal s := by
  induction s generalizing a with
  | nil => simp [digitsVal]
  | cons c t ih =>
    simp only [List.foldl_cons, digitsVal] at *
    rw [ih, ih (10 * 0 + (c.toNat - 48))]
    simp only [List.length_cons, pow_succ]
    ring

theorem digitsVal_append (s t : List Char) :
    digitsVal (s ++ t) = digitsVal s * 10 ^ t.length + digitsVal t := by
  unfold digitsVal
  rw [List.foldl_append, digitsVal_go]
  rfl

theorem digitsVal_replicate_zero (k : Nat) (s : List Char) :
    digitsVal (List.replicate k '0' ++ s) = digitsVal s := by
  rw [digitsVal_append]
  have : digitsVal (List.replicate k '0') = 0 := by
    induction k with
    | zero => rfl
    | succ n ih =>
      unfold digitsVal at *
      simp only [List.replicate_succ, List.foldl_cons]
      simpa using ih
  rw [this]
  simp

/-- Reading back the digit list of `n` yields `n`. -/
theorem digitsVal_natDigits (n : Nat) : digitsVal (natDigits n) = n := by
  induction n using Nat.strong_induction_on with
  | _ n ih =>
    unfold natDigits
    by_cases h : n < 10
    · simp only [h, if_pos, dif_pos]
      unfold digitsVal
      simp [digitChar_toNat n h]
    · simp only [h, dif_neg, not_false_iff]
      rw [digitsVal_append]
      have hd : digitsVal [digitChar (n % 10)] = n % 10 := by
        unfold digitsVal
        simp [digitChar_toNat (n % 10) (Nat.mod_lt n (by omega))]
      rw [hd, ih (n / 10) (Nat.div_lt_self (by omega) (by omega))]
      simp only [List.length_singleton, pow_one]
      omega

/-- Digit-count bound: a number below `10 ^ k` has at most `k` digits
(for positive `k`). -/
theorem natDigits_length_le (k : Nat) (hk : 1 ≤ k) :
    ∀ n, n < 10 ^ k → (natDigits n).length ≤ k := by
  induction k with
  | zero => omega
  | succ m ih =>
    intro n hn
    unfold natDigits
    by_cases h : n < 10
    · simp [h]
    · simp only [h, dif_neg, not_false_iff, List.length_append,
        List.length_singleton]
      have hm : 1 ≤ m := by
        rcases Nat.eq_zero_or_pos m with h0 | h1
        · subst h0; simp at hn; omega
        · exact h1
      have hdiv : n / 10 < 10 ^ m := by
        rw [Nat.div_lt_iff_lt_mul (by omega)]
        calc n < 10 ^ (m + 1) := hn
        _ = 10 ^ m * 10 := by ring
      have := ih hm (n / 10) hdiv
      omega

/-- For counters up to 9999 the padded suffix reads back to the counter
itself: no information is lost by the width-4 padding. -/
theorem numericSuffix_eq (n : Nat) (h : n ≤ 9999) : numericSuffix n = n := by
  unfold numericSuffix invSuffix lpadList
  have hlen : (natDigits n).length ≤ 4 :=
    natDigits_length_le 4 (by omega) n (by omega)
  by_cases h4 : 4 ≤ (natDigits n).length
  · have : (natDigits n).length = 4 := by omega
    simp only [h4, if_pos]
    rw [← this, List.take_length, digitsVal_natDigits]
  · simp only [h4, if_neg, not_false_iff]
    rw [digitsVal_replicate_zero, digitsVal_natDigits]

theorem invoiceNumberOf_data (n : Nat) :
    (invoiceNumberOf n).data = 'I' :: 'N' :: 'V' :: '-' :: invSuffix n := by
  rfl

/-- The formatted invoice numbers of two distinct counters up to 9999 are
distinct strings. -/
theorem invoiceNumberOf_injOn (n m : Nat) (hn : n ≤ 9999) (hm : m ≤ 9999)
    (h : invoiceNumberOf n = invoiceNumberOf m) : n = m := by
  have hdata := congrArg String.data h
  rw [invoiceNumberOf_data, invoiceNumberOf_data] at hdata
  have hsuffix : invSuffix n = invSuffix m := by
    simpa using hdata
  have : numericSuffix n = numericSuffix m := by
    unfold numericSuffix; rw [hsuffix]
  rwa [numericSuffix_eq n hn, numericSuffix_eq m hm] at this

theorem bumpOrg_id (orgId : Nat) (o : OrgRow) : (bumpOrg orgId o).id = o.id := by
  unfold bumpOrg
  by_cases h : o.id == orgId <;> simp [h]

/-- `find?` over a map by a function that preserves the searched field
commutes with the map. -/
theorem find?_map_id_preserving (l : List OrgRow) (x : Nat) (f : OrgRow → OrgRow)
    (hf : ∀ o, (f o).id = o.id) :
    (l.map f).find? (fun o => o.id == x) = (l.find? (fun o => o.id == x)).map f := by
  induction l with
  | nil => rfl
  | cons a t ih =>
    by_cases h : a.id == x
    · rw [List.map_cons, List.find?_cons_of_pos, List.find?_cons_of_pos]
      · rfl
      · exact h
      · simpa [hf a] using h
    · rw [List.map_cons, List.find?_cons_of_neg, List.find?_cons_of_neg]
      · exact ih
      · simpa using h
      · simpa [hf a] using by simpa using h

theorem find?_map_invoice_id_preserving (l : List InvoiceRow) (x : Nat)
    (f : InvoiceRow → InvoiceRow) (hf : ∀ r, (f r).id = r.id) :
    (l.map f).find? (fun r => r.id == x) = (l.find? (fun r => r.id == x)).map f := by
  induction l with
  | nil => rfl
  | cons a t ih =>
    by_cases h : a.id == x
    · rw [List.map_cons, List.find?_cons_of_pos, List.find?_cons_of_pos]
      · rfl
      · exact h
      · simpa [hf a] using h
    · rw [List.map_cons, List.find?_cons_of_neg, List.find?_cons_of_neg]
      · exact ih
      · simpa using h
      · simpa [hf a] using by simpa using h

/-- One allocator call on an existing organization: the result is the
formatted successor of the counter and the stored counter becomes that
successor. -/
theorem get_next_spec (db : Db) (orgId c : Nat)
    (h : orgCounter db orgId = some c) :
    (get_next_invoice_number db orgId).1 = Except.ok (some (invoiceNumberOf (c + 1)))
      ∧ orgCounter (get_next_invoice_number db orgId).2 orgId = some (c + 1) := by
  unfold orgCounter at h
  obtain ⟨o, ho, hoc⟩ := Option.map_eq_some'.1 h
  constructor
  · unfold get_next_invoice_number
    simp [ho, hoc]
  · unfold get_next_invoice_number orgCounter
    simp only
    rw [find?_map_id_preserving _ _ _ (bumpOrg_id orgId), ho]
    have hid : (o.id == orgId) = true := by simpa using List.find?_some ho
    simp [bumpOrg, hid, hoc]

/-- One allocator call does not touch the counter of any other
organization. -/
theorem get_next_frame (db : Db) (orgId orgId2 : Nat) (h : orgId2 ≠ orgId) :
    orgCounter (get_next_invoice_number db orgId).2 orgId2 = orgCounter db orgId2 := by
  unfold get_next_invoice_number orgCounter
  simp only
  rw [find?_map_id_preserving _ _ _ (bumpOrg_id orgId)]
  cases hfind : db.orgs.find? (fun o => o.id == orgId2) with
  | none => rfl
  | some o =>
    have hid : (o.id == orgId2) = true := by simpa using List.find?_some hfind
    have hoid : o.id = orgId2 := by simpa using hid
    have hob : bumpOrg orgId o = o := by
      unfold bumpOrg
      have hne : (o.id == orgId) = false := by
        rw [hoid]
        exact beq_eq_false_iff_ne.2 h
      simp [hne]
    simp [hob]

/-- Allocation on an absent organization: the UPDATE matches nothing, the
returned value is NULL (not an error) and the state is unchanged. -/
theorem get_next_missing (db : Db) (orgId : Nat)
    (h : orgCounter db orgId = none) :
    (get_next_invoice_number db orgId).1 = Except.ok none
      ∧ (get_next_invoice_number db orgId).2 = db := by
  unfold orgCounter at h
  have hfind : db.orgs.find? (fun o => o.id == orgId) = none := by
    cases hf : db.orgs.find? (fun o => o.id == orgId) with
    | none => rfl
    | some o => rw [hf] at h; simp at h
  constructor
  · unfold get_next_invoice_number
    simp [hfind]
  · unfold get_next_invoice_number
    simp only
    have hmap : db.orgs.map (bumpOrg orgId) = db.orgs := by
      have hall := List.find?_eq_none.1 hfind
      calc db.orgs.map (bumpOrg orgId)
          = db.orgs.map id := by
            apply List.map_congr_left
            intro o ho
            have : ¬ (o.id == orgId) := hall o ho
            unfold bumpOrg
            simp only [this]
            simp at this
            simp [this]
        _ = db.orgs := List.map_id db.orgs
    rw [hmap]

/-- Results of `N` sequential allocator calls starting from counter `c`:
the `k`-th call returns the formatted value of `c + k + 1` and the final
counter is `c + N`. -/
theorem allocRun_spec (N : Nat) : ∀ (db : Db) (orgId c : Nat),
    orgCounter db orgId = some c →
    (allocRun db orgId N).1 =
        (List.range N).map (fun k => Except.ok (some (invoiceNumberOf (c + k + 1))))
      ∧ orgCounter (allocRun db orgId N).2 orgId = some (c + N) := by
  induction N with
  | zero =>
    intro db orgId c h
    exact ⟨rfl, by simpa using h⟩
  | succ n ih =>
    intro db orgId c h
    obtain ⟨h1, h2⟩ := get_next_spec db orgId c h
    obtain ⟨ih1, ih2⟩ := ih (get_next_invoice_number db orgId).2 orgId (c + 1) h2
    constructor
    · show (get_next_invoice_number db orgId).1 :: _ = _
      rw [h1, ih1, List.range_succ_eq_map, List.map_cons, List.map_map]
      congr 1
      apply List.map_congr_left
      intro k _
      simp only [Function.comp_apply]
      exact congrArg (fun x => Except.ok (some (invoiceNumberOf x))) (by omega)
    · show orgCounter (allocRun (get_next_invoice_number db orgId).2 orgId n).2 orgId = _
      rw [ih2]
      congr 1
      omega

/-- Sequential allocation for one organization does not touch the counter of
any other organization. -/
theorem allocRun_frame (N : Nat) : ∀ (db : Db) (orgId orgId2 : Nat), orgId2 ≠ orgId →
    orgCounter (allocRun db orgId N).2 orgId2 = orgCounter db orgId2 := by
  induction N with
  | zero => intro db orgId orgId2 _; rfl
  | succ n ih =>
    intro db orgId orgId2 h
    show orgCounter (allocRun (get_next_invoice_number db orgId).2 orgId n).2 orgId2 = _
    rw [ih _ orgId orgId2 h, get_next_frame db orgId orgId2 h]

theorem natDigits_lt (n : Nat) (h : n < 10) : natDigits n = [digitChar n] := by
  conv_lhs => rw [natDigits]
  simp [h]

theorem natDigits_ge (n : Nat) (h : ¬ n < 10) :
    natDigits n = natDigits (n / 10) ++ [digitChar (n % 10)] := by
  conv_lhs => rw [natDigits]
  simp [h]

theorem natDigits_one : natDigits 1 = ['1'] := by
  rw [natDigits_lt 1 (by norm_num)]
  rfl

theorem natDigits_two : natDigits 2 = ['2'] := by
  rw [natDigits_lt 2 (by norm_num)]
  rfl

theorem natDigits_thousand : natDigits 1000 = ['1', '0', '0', '0'] := by
  rw [natDigits_ge 1000 (by norm_num), natDigits_ge (1000 / 10) (by norm_num),
    natDigits_ge (1000 / 10 / 10) (by norm_num),
    natDigits_lt (1000 / 10 / 10 / 10) (by norm_num)]
  rfl

theorem natDigits_tenThousand : natDigits 10000 = ['1', '0', '0', '0', '0'] := by
  rw [natDigits_ge 10000 (by norm_num), natDigits_ge (10000 / 10) (by norm_num),
    natDigits_ge (10000 / 10 / 10) (by norm_num),
    natDigits_ge (10000 / 10 / 10 / 10) (by norm_num),
    natDigits_lt (10000 / 10 / 10 / 10 / 10) (by norm_num)]
  rfl

theorem invoiceNumberOf_one : invoiceNumberOf 1 = "INV-0001" := by
  unfold invoiceNumberOf natToString lpad
  rw [show ((⟨natDigits 1⟩ : String)).data = ['1'] from by rw [natDigits_one]]
  rfl

theorem invoiceNumberOf_two : invoiceNumberOf 2 = "INV-0002" := by
  unfold invoiceNumberOf natToString lpad
  rw [show ((⟨natDigits 2⟩ : String)).data = ['2'] from by rw [natDigits_two]]
  rfl

theorem invoiceNumberOf_thousand : invoiceNumberOf 1000 = "INV-1000" := by
  unfold invoiceNumberOf natToString lpad
  rw [show ((⟨natDigits 1000⟩ : String)).data = ['1', '0', '0', '0'] from by
    rw [natDigits_thousand]]
  rfl

/-- At counter 10000 the PostgreSQL LPAD truncates the five digits to four:
the produced number equals the one of counter 1000. -/
theorem invoiceNumberOf_tenThousand : invoiceNumberOf 10000 = "INV-1000" := by
  unfold invoiceNumberOf natToString lpad
  rw [show ((⟨natDigits 10000⟩ : String)).data = ['1', '0', '0', '0', '0'] from by
    rw [natDigits_tenThousand]]
  rfl

theorem calcTotals_go (items : List ItemInput) : ∀ (a b : ℚ),
    items.foldl
        (fun acc it =>
          let itemSubtotal := it.quantity * it.unit_price
          let itemTax := itemSubtotal * (it.tax_rate / 100)
          (acc.1 + itemSubtotal, acc.2 + itemTax))
        (a, b)
      = (a + (items.map (fun it => it.quantity * it.unit_price)).sum,
         b + (items.map (fun it => it.quantity * it.unit_price * (it.tax_rate / 100))).sum) := by
  induction items with
  | nil => intro a b; simp
  | cons it t ih =>
    intro a b
    simp only [List.foldl_cons, List.map_cons, List.sum_cons]
    rw [ih]
    rw [Prod.mk.injEq]
    constructor <;> ring

/-- The single accumulation pass of the mutation hooks computes exactly the
two sums. -/
theorem calcTotals_spec (items : List ItemInput) :
    (calcTotals items).1 = (items.map (fun it => it.quantity * it.unit_price)).sum
      ∧ (calcTotals items).2
        = (items.map (fun it => it.quantity * it.unit_price * (it.tax_rate / 100))).sum := by
  unfold calcTotals
  rw [calcTotals_go items 0 0]
  constructor <;> simp

theorem get_next_invoices (db : Db) (orgId : Nat) :
    (get_next_invoice_number db orgId).2.invoices = db.invoices := rfl

theorem get_next_items (db : Db) (orgId : Nat) :
    (get_next_invoice_number db orgId).2.invoice_items = db.invoice_items := rfl

/-- Data extracted from a successful insert: the row carries the payload
values, the discount defaults to zero, and the row is appended. -/
theorem insertInvoice_ok_spec (db : Db) (ins : InvoiceInsert) (r : InvoiceRow) (db2 : Db)
    (h : insertInvoice db ins = Except.ok (r, db2)) :
    r.discount_amount = 0 ∧ r.subtotal = ins.subtotal ∧ r.tax_amount = ins.tax_amount
      ∧ r.total_amount = ins.total_amount
      ∧ db2.invoices = db.invoices ++ [r]
      ∧ db2.orgs = db.orgs ∧ db2.invoice_items = db.invoice_items := by
  unfold insertInvoice at h
  split at h
  · cases h
  · split at h
    · cases h
    · rw [Except.ok.injEq, Prod.mk.injEq] at h
      obtain ⟨hr, hdb⟩ := h
      subst hr
      subst hdb
      exact ⟨rfl, rfl, rfl, rfl, rfl, rfl, rfl⟩

theorem insertInvoice_error_none (db : Db) (ins : InvoiceInsert)
    (h : ins.invoice_number = none) :
    insertInvoice db ins = Except.error PgError.notNullViolation := by
  unfold insertInvoice
  rw [h]

/-- The organizations after a creation request are exactly the base rows
with the counter bump applied, in every branch (allocation happens first,
and a failing insert rolls nothing back). -/
theorem createInvoice_orgs (db : Db) (orgId userId : Nat) (invoice : InvoiceInput)
    (items : List ItemInput) :
    ((createInvoice db orgId userId invoice items).2).orgs = db.orgs.map (bumpOrg orgId) := by
  simp only [createInvoice]
  split
  · rename_i e heq
    simp [get_next_invoice_number] at heq
  · rename_i inum heq
    split
    · rfl
    · rename_i r db2 hins
      have hspec := insertInvoice_ok_spec _ _ _ _ hins
      simp only
      rw [hspec.2.2.2.2.2.1]
      rfl

theorem updateInvoice_orgs (db : Db) (id : Nat) (invoice : InvoiceUpdateInput)
    (items : List ItemInput) :
    ((updateInvoice db id invoice items).2).orgs = db.orgs := by
  unfold updateInvoice
  split <;> rfl

theorem setInvoiceStatus_orgs (db : Db) (id : Nat) (s : InvoiceStatus) :
    ((setInvoiceStatus db id s).2).orgs = db.orgs := by
  unfold setInvoiceStatus
  split <;> rfl

theorem deleteInvoice_orgs (db : Db) (id : Nat) :
    ((deleteInvoice db id).2).orgs = db.orgs := rfl

theorem orgCounter_congr (db db2 : Db) (orgId : Nat) (h : db2.orgs = db.orgs) :
    orgCounter db2 orgId = orgCounter db orgId := by
  unfold orgCounter
  rw [h]

/-- Applying the counter bump for some organization never decreases any
counter: the targeted counter grows by one, all others are unchanged. -/
theorem orgCounter_bump_ge (db db2 : Db) (x orgId c : Nat)
    (horgs : db2.orgs = db.orgs.map (bumpOrg x))
    (h : orgCounter db orgId = some c) :
    ∃ c2, orgCounter db2 orgId = some c2 ∧ c ≤ c2 := by
  unfold orgCounter at h ⊢
  rw [horgs, find?_map_id_preserving _ _ _ (bumpOrg_id x)]
  obtain ⟨o, ho, hoc⟩ := Option.map_eq_some'.1 h
  rw [ho]
  unfold bumpOrg
  by_cases hx : o.id = x
  · exact ⟨c + 1, by simp [hx, hoc], by omega⟩
  · exact ⟨c, by simp [hx, hoc], le_refl c⟩

/-- A creation request either leaves the invoices unchanged (failed insert)
or appends exactly one row, whose discount is zero and whose total is the
sum of its subtotal and tax amount. -/
theorem createInvoice_invoices (db : Db) (orgId userId : Nat) (invoice : InvoiceInput)
    (items : List ItemInput) :
    ((createInvoice db orgId userId invoice items).2).invoices = db.invoices
      ∨ ∃ row, ((createInvoice db orgId userId invoice items).2).invoices = db.invoices ++ [row]
          ∧ row.discount_amount = 0
          ∧ row.total_amount = row.subtotal + row.tax_amount := by
  simp only [createInvoice]
  split
  · left; rfl
  · split
    · left; rfl
    · rename_i r db2 hins
      have hspec := insertInvoice_ok_spec _ _ _ _ hins
      right
      refine ⟨r, ?_, hspec.1, ?_⟩
      · simp only
        rw [hspec.2.2.2.2.1, get_next_invoices]
      · rw [hspec.2.2.2.1, hspec.2.1, hspec.2.2.1]

/-- Every operation preserves the financial invariant of the stored
invoices. -/
theorem step_invariant (db : Db) (op : Op) (h : InvariantTotals db) :
    InvariantTotals (step db op) := by
  cases op with
  | create orgId userId invoice items =>
    intro r hr
    simp only [step] at hr
    rcases createInvoice_invoices db orgId userId invoice items with hinv | ⟨row, hinv, hd, ht⟩
    · rw [hinv] at hr
      exact h r hr
    · rw [hinv] at hr
      rcases List.mem_append.1 hr with h1 | h2
      · exact h r h1
      · have : r = row := by simpa using h2
        subst this
        exact ⟨hd, by rw [ht, hd]; ring⟩
  | update id invoice items =>
    intro r hr
    simp only [step, updateInvoice] at hr
    split at hr
    · exact h r hr
    · rename_i old hfind
      obtain ⟨r0, hr0, hf⟩ := List.mem_map.1 hr
      by_cases hid : r0.id == id
      · rw [if_pos hid] at hf
        subst hf
        have h0 := h r0 hr0
        refine ⟨?_, ?_⟩
        · exact h0.1
        · show (calcTotals items).1 + (calcTotals items).2
              = (calcTotals items).1 + (calcTotals items).2 - r0.discount_amount
          rw [h0.1]
          ring
      · rw [if_neg hid] at hf
        subst hf
        exact h r0 hr0
  | setStatus id s =>
    intro r hr
    simp only [step, setInvoiceStatus] at hr
    split at hr
    · exact h r hr
    · rename_i old hfind
      obtain ⟨r0, hr0, hf⟩ := List.mem_map.1 hr
      by_cases hid : r0.id == id
      · rw [if_pos hid] at hf
        subst hf
        exact h r0 hr0
      · rw [if_neg hid] at hf
        subst hf
        exact h r0 hr0
  | delete id =>
    intro r hr
    simp only [step, deleteInvoice] at hr
    exact h r (List.mem_filter.1 hr).1
  | allocate orgId =>
    intro r hr
    simp only [step] at hr
    rw [get_next_invoices] at hr
    exact h r hr

/-- Fields of the row written by a successful update: the recomputed
totals. -/
theorem updateInvoice_ok_fields (db : Db) (id : Nat) (u : InvoiceUpdateInput)
    (items : List ItemInput) (r : InvoiceRow)
    (h : (updateInvoice db id u items).1 = Except.ok r) :
    r.subtotal = (calcTotals items).1 ∧ r.tax_amount = (calcTotals items).2
      ∧ r.total_amount = (calcTotals items).1 + (calcTotals items).2 := by
  simp only [updateInvoice] at h
  split at h
  · cases h
  · rename_i old hfind
    simp only at h
    rw [Except.ok.injEq] at h
    subst h
    exact ⟨rfl, rfl, rfl⟩

/-- Fields of the row written by a successful creation: the recomputed
totals, with the discount defaulting to zero. -/
theorem createInvoice_ok_fields (db : Db) (orgId userId : Nat) (inv : InvoiceInput)
    (items : List ItemInput) (s : InvoiceRow)
    (h : (createInvoice db orgId userId inv items).1 = Except.ok s) :
    s.subtotal = (calcTotals items).1 ∧ s.tax_amount = (calcTotals items).2
      ∧ s.total_amount = (calcTotals items).1 + (calcTotals items).2
      ∧ s.discount_amount = 0 := by
  simp only [createInvoice] at h
  split at h
  · cases h
  · split at h
    · cases h
    · rename_i row db2 hins
      have hspec := insertInvoice_ok_spec _ _ _ _ hins
      simp only at h
      rw [Except.ok.injEq] at h
      subst h
      exact ⟨hspec.2.1, hspec.2.2.1, hspec.2.2.2.1, hspec.1⟩

/-- Claim C2: the invoice totals computed by the create and update mutations
satisfy subtotal = sum of quantity times unit price, tax amount = sum of
quantity times unit price times tax rate over 100, and total = subtotal
plus tax amount; for the example item list (2 at 100 with rate 18, 1 at 50
with rate 0) the totals are 250, 36 and 286. -/
theorem C2_invoice_totals (items : List ItemInput) (db db2 : Db)
    (id orgId userId : Nat) (u : InvoiceUpdateInput) (inv : InvoiceInput)
    (r s : InvoiceRow)
    (hupd : (updateInvoice db id u items).1 = Except.ok r)
    (hcre : (createInvoice db2 orgId userId inv items).1 = Except.ok s) :
    (calcTotals items).1 = (items.map (fun it => it.quantity * it.unit_price)).sum
      ∧ (calcTotals items).2
        = (items.map (fun it => it.quantity * it.unit_price * (it.tax_rate / 100))).sum
      ∧ r.subtotal = (calcTotals items).1
      ∧ r.tax_amount = (calcTotals items).2
      ∧ r.total_amount = r.subtotal + r.tax_amount
      ∧ s.subtotal = (calcTotals items).1
      ∧ s.tax_amount = (calcTotals items).2
      ∧ s.total_amount = s.subtotal + s.tax_amount
      ∧ (calcTotals exampleItems).1 = 250
      ∧ (calcTotals exampleItems).2 = 36
      ∧ (calcTotals exampleItems).1 + (calcTotals exampleItems).2 = 286 := by
  obtain ⟨hu1, hu2, hu3⟩ := updateInvoice_ok_fields db id u items r hupd
  obtain ⟨hc1, hc2, hc3, _⟩ := createInvoice_ok_fields db2 orgId userId inv items s hcre
  refine ⟨(calcTotals_spec items).1, (calcTotals_spec items).2, hu1, hu2, ?_, hc1, hc2, ?_,
    ?_, ?_, ?_⟩
  · rw [hu1, hu2, hu3]
  · rw [hc1, hc2, hc3]
  · norm_num [calcTotals, exampleItems]
  · norm_num [calcTotals, exampleItems]
  · norm_num [calcTotals, exampleItems]

/-- Claim C2 witness: a concrete successful update and creation with the
example items. -/
theorem C2_invoice_totals_witness :
    (calcTotals exampleItems).1
        = (exampleItems.map (fun it => it.quantity * it.unit_price)).sum
      ∧ (calcTotals exampleItems).2
        = (exampleItems.map (fun it => it.quantity * it.unit_price * (it.tax_rate / 100))).sum
      ∧ rowC2u.subtotal = (calcTotals exampleItems).1
      ∧ rowC2u.tax_amount = (calcTotals exampleItems).2
      ∧ rowC2u.total_amount = rowC2u.subtotal + rowC2u.tax_amount
      ∧ rowC2c.subtotal = (calcTotals exampleItems).1
      ∧ rowC2c.tax_amount = (calcTotals exampleItems).2
      ∧ rowC2c.total_amount = rowC2c.subtotal + rowC2c.tax_amount
      ∧ (calcTotals exampleItems).1 = 250
      ∧ (calcTotals exampleItems).2 = 36
      ∧ (calcTotals exampleItems).1 + (calcTotals exampleItems).2 = 286 :=
  C2_invoice_totals exampleItems dbC2u dbC2c 1 1 9 updNone inputC7 rowC2u rowC2c rfl rfl

/-- Claim C6: the per-line amount equals quantity times unit price times
(1 plus tax rate over 100) for admissible inputs; at quantity 2, unit
price 100, tax rate 18 the amount is 236; and the amounts stored by the
creation and update loops agree with the pure helper. -/
theorem C6_line_amount (q p r : ℚ) (_hq : 0 < q) (_hp : 0 ≤ p) (_hr0 : 0 ≤ r)
    (_hr1 : r ≤ 100) :
    calculateItemAmount q p r = q * p * (1 + r / 100)
      ∧ calculateItemAmount 2 100 18 = 236
      ∧ (∀ items : List ItemInput, (itemsWithAmounts items).map (fun x => x.2)
          = items.map (fun it => calculateItemAmount it.quantity it.unit_price it.tax_rate)) := by
  refine ⟨?_, by norm_num [calculateItemAmount], ?_⟩
  · unfold calculateItemAmount
    ring
  · intro items
    unfold itemsWithAmounts
    rw [List.map_map]
    rfl

/-- Claim C6 witness: the contract instantiated at quantity 2, unit
price 100, tax rate 18. -/
theorem C6_line_amount_witness :
    (0 : ℚ) < 2 ∧ (0 : ℚ) ≤ 100 ∧ (0 : ℚ) ≤ 18 ∧ (18 : ℚ) ≤ 100
      ∧ (calculateItemAmount 2 100 18 = 2 * 100 * (1 + 18 / 100)
        ∧ calculateItemAmount 2 100 18 = 236
        ∧ (∀ items : List ItemInput, (itemsWithAmounts items).map (fun x => x.2)
            = items.map (fun it => calculateItemAmount it.quantity it.unit_price it.tax_rate))) :=
  ⟨by norm_num, by norm_num, by norm_num, by norm_num,
    C6_line_amount 2 100 18 (by norm_num) (by norm_num) (by norm_num) (by norm_num)⟩

/-- Claim C7: every stored invoice reachable through the exposed operations
satisfies total = subtotal + tax - discount with discount zero: creation
inserts discount 0 and total = subtotal + tax, and no operation ever writes
the discount column. -/
theorem C7_totals_invariant (db : Db) (ops : List Op) (h : InvariantTotals db) :
    InvariantTotals (run db ops) := by
  induction ops generalizing db with
  | nil => simpa [run] using h
  | cons op t ih =>
    show InvariantTotals (run (step db op) t)
    exact ih (step db op) (step_invariant db op h)

/-- Claim C7 witness: the invariant after a concrete creation starting from
an invoice-free state. -/
theorem C7_totals_invariant_witness :
    InvariantTotals (run dbC7w [Op.create 1 9 inputC7 exampleItems]) :=
  C7_totals_invariant dbC7w [Op.create 1 9 inputC7 exampleItems]
    (by intro r hr; simp [dbC7w] at hr)

/-- Claim C8: an update leaves the id, invoice number and organization of
every stored invoice unchanged; the update payload carries no invoice
number even though the edit form collects one. -/
theorem C8_update_preserves_identity (db : Db) (id : Nat)
    (invoice : InvoiceUpdateInput) (items : List ItemInput) :
    ((updateInvoice db id invoice items).2).invoices.map
        (fun r => (r.id, r.invoice_number, r.organization_id))
      = db.invoices.map (fun r => (r.id, r.invoice_number, r.organization_id)) := by
  simp only [updateInvoice]
  split
  · rfl
  · rename_i old hfind
    simp only
    rw [List.map_map]
    apply List.map_congr_left
    intro r _
    by_cases hid : r.id == id
    · simp only [Function.comp_apply, if_pos hid]
      rfl
    · simp only [Function.comp_apply, if_neg hid]

/-- Claim C9: inserting an invoice whose number already exists within the
same organization hits the uniqueness constraint of the schema and fails
with a conflict error. -/
theorem C9_duplicate_number_conflict (db : Db) (ins : InvoiceInsert)
    (num : String) (r : InvoiceRow)
    (hnum : ins.invoice_number = some num) (hr : r ∈ db.invoices)
    (horg : r.organization_id = ins.organization_id)
    (hn : r.invoice_number = num) :
    insertInvoice db ins = Except.error PgError.conflict := by
  have hany : (db.invoices.any (fun x =>
      x.organization_id == ins.organization_id && x.invoice_number == num)) = true :=
    List.any_eq_true.2 ⟨r, hr, by rw [horg, hn]; simp⟩
  unfold insertInvoice
  rw [hnum]
  simp [hany]

/-- Claim C9 witness: the concrete collision on INV-0001 within
organization 1. -/
theorem C9_duplicate_number_conflict_witness :
    insertInvoice dbC9w insC9 = Except.error PgError.conflict :=
  C9_duplicate_number_conflict dbC9w insC9 "INV-0001" invPaid rfl
    (by simp [dbC9w]) rfl rfl

/-- Claim C1 (amended: for up to 9999 sequential allocations): starting from
counter 0, the k-th call returns the zero-padded value INV-000k, the
numeric suffixes are strictly increasing and the formatted values pairwise
distinct, the counter of every other organization is untouched, and any
organization at counter 0 receives INV-0001 on its first call. -/
theorem C1_sequential_allocation (db : Db) (orgId N : Nat)
    (h0 : orgCounter db orgId = some 0) (hN : N ≤ 9999) :
    (allocRun db orgId N).1
        = (List.range N).map (fun k => Except.ok (some (invoiceNumberOf (k + 1))))
      ∧ (∀ i j, i < j → j ≤ N → numericSuffix i < numericSuffix j)
      ∧ (∀ i j, i < j → j ≤ N → invoiceNumberOf i ≠ invoiceNumberOf j)
      ∧ (∀ orgId2, orgId2 ≠ orgId →
          orgCounter (allocRun db orgId N).2 orgId2 = orgCounter db orgId2)
      ∧ (∀ db2 orgId2, orgCounter db2 orgId2 = some 0 →
          (get_next_invoice_number db2 orgId2).1 = Except.ok (some "INV-0001")) := by
  refine ⟨?_, ?_, ?_, ?_, ?_⟩
  · rw [(allocRun_spec N db orgId 0 h0).1]
    apply List.map_congr_left
    intro k _
    rw [Nat.zero_add]
  · intro i j hij hj
    rw [numericSuffix_eq i (by omega), numericSuffix_eq j (by omega)]
    exact hij
  · intro i j hij hj hEq
    have := invoiceNumberOf_injOn i j (by omega) (by omega) hEq
    omega
  · intro orgId2 hne
    exact allocRun_frame N db orgId orgId2 hne
  · intro db2 orgId2 h2
    have h1 := (get_next_spec db2 orgId2 0 h2).1
    rwa [invoiceNumberOf_one] at h1

/-- Claim C1 witness: two allocations on a fresh organization. -/
theorem C1_sequential_allocation_witness :
    (allocRun dbC1 1 2).1
        = (List.range 2).map (fun k => Except.ok (some (invoiceNumberOf (k + 1))))
      ∧ (∀ i j, i < j → j ≤ 2 → numericSuffix i < numericSuffix j)
      ∧ (∀ i j, i < j → j ≤ 2 → invoiceNumberOf i ≠ invoiceNumberOf j)
      ∧ (∀ orgId2, orgId2 ≠ 1 →
          orgCounter (allocRun dbC1 1 2).2 orgId2 = orgCounter dbC1 orgId2)
      ∧ (∀ db2 orgId2, orgCounter db2 orgId2 = some 0 →
          (get_next_invoice_number db2 orgId2).1 = Except.ok (some "INV-0001")) :=
  C1_sequential_allocation dbC1 1 2 rfl (by norm_num)

/-- Claim C1 counterexample: over 10000 sequential allocations from
counter 0 the values are not pairwise distinct; call 1000 and call 10000
both return INV-1000, because LPAD truncates the five digits of 10000. -/
theorem C1_duplicate_within_10000_calls :
    (allocRun dbC1 1 10000).1[999]? = some (Except.ok (some "INV-1000"))
      ∧ (allocRun dbC1 1 10000).1[9999]? = some (Except.ok (some "INV-1000"))
      ∧ (999 : Nat) ≠ 9999 := by
  have h := (allocRun_spec 10000 dbC1 1 0 rfl).1
  refine ⟨?_, ?_, by norm_num⟩
  · rw [h, List.getElem?_map, List.getElem?_range (by norm_num)]
    simp only [Option.map_some']
    rw [show (0 : Nat) + 999 + 1 = 1000 from by norm_num, invoiceNumberOf_thousand]
  · rw [h, List.getElem?_map, List.getElem?_range (by norm_num)]
    simp only [Option.map_some']
    rw [show (0 : Nat) + 9999 + 1 = 10000 from by norm_num, invoiceNumberOf_tenThousand]

/-- Claim C3: at counter 10000 the allocator does not return the full
decimal representation; PostgreSQL LPAD right-truncates to width 4, so the
result is INV-1000 instead of INV-10000, colliding with counter 1000. -/
theorem C3_width_truncates :
    (get_next_invoice_number dbC3 1).1 = Except.ok (some (invoiceNumberOf 10000))
      ∧ invoiceNumberOf 10000 = "INV-1000"
      ∧ "INV-1000" ≠ "INV-10000" := by
  refine ⟨rfl, invoiceNumberOf_tenThousand, by decide⟩

/-- Claim C4 counterexample: calling the allocator for an absent
organization id raises no error at all; it returns SQL NULL and leaves the
state unchanged. -/
theorem C4_missing_org_no_error :
    (get_next_invoice_number dbC4 77).1 = Except.ok none
      ∧ (get_next_invoice_number dbC4 77).1 ≠ Except.error PgError.notFound
      ∧ (get_next_invoice_number dbC4 77).2 = dbC4 := by
  refine ⟨rfl, fun h => Except.noConfusion h, rfl⟩

/-- Claim C4 (amended): for an absent organization the allocator succeeds
with a NULL result instead of failing with a not-found error, and the state
is unchanged. -/
theorem C4_missing_org_returns_null (db : Db) (orgId : Nat)
    (h : orgCounter db orgId = none) :
    (get_next_invoice_number db orgId).1 = Except.ok none
      ∧ (get_next_invoice_number db orgId).1 ≠ Except.error PgError.notFound
      ∧ (get_next_invoice_number db orgId).2 = db := by
  obtain ⟨h1, h2⟩ := get_next_missing db orgId h
  exact ⟨h1, by rw [h1]; exact fun hh => Except.noConfusion hh, h2⟩

/-- Claim C4 witness: the amended behavior at a concrete absent id. -/
theorem C4_missing_org_returns_null_witness :
    (get_next_invoice_number dbC4w 77).1 = Except.ok none
      ∧ (get_next_invoice_number dbC4w 77).1 ≠ Except.error PgError.notFound
      ∧ (get_next_invoice_number dbC4w 77).2 = dbC4w :=
  C4_missing_org_returns_null dbC4w 77 rfl

/-- Claim C5 counterexample: the status update is applied unconditionally;
a paid invoice is moved to sent and a cancelled one back to draft. -/
theorem C5_terminal_states_not_enforced :
    dbC5.invoices.map (fun r => r.status) = [InvoiceStatus.paid, InvoiceStatus.cancelled]
      ∧ (setInvoiceStatus dbC5 1 InvoiceStatus.sent).1
        = Except.ok { invPaid with status := InvoiceStatus.sent }
      ∧ ((setInvoiceStatus dbC5 1 InvoiceStatus.sent).2).invoices.map (fun r => r.status)
        = [InvoiceStatus.sent, InvoiceStatus.cancelled]
      ∧ ((setInvoiceStatus dbC5 2 InvoiceStatus.draft).2).invoices.map (fun r => r.status)
        = [InvoiceStatus.paid, InvoiceStatus.draft]
      ∧ InvoiceStatus.sent ≠ InvoiceStatus.paid
      ∧ InvoiceStatus.draft ≠ InvoiceStatus.cancelled := by
  exact ⟨rfl, rfl, rfl, rfl, by decide, by decide⟩

/-- Claim C5 (amended): the status transition operation overwrites the
status of the matched invoice with the requested one, whatever the current
status is, including the paid and cancelled states; no terminal-state guard
exists. -/
theorem C5_setStatus_unconditional (db : Db) (id : Nat) (s : InvoiceStatus)
    (old : InvoiceRow)
    (h : db.invoices.find? (fun r => r.id == id) = some old) :
    (setInvoiceStatus db id s).1 = Except.ok { old with status := s }
      ∧ ((setInvoiceStatus db id s).2).invoices.find? (fun r => r.id == id)
        = some { old with status := s } := by
  have e : setInvoiceStatus db id s
      = (Except.ok { old with status := s },
         { db with invoices := db.invoices.map (fun r =>
             if r.id == id then { r with status := s } else r) }) := by
    unfold setInvoiceStatus
    rw [h]
  rw [e]
  refine ⟨rfl, ?_⟩
  have hpres : ∀ r : InvoiceRow,
      ((if r.id == id then { r with status := s } else r) : InvoiceRow).id = r.id := by
    intro r
    by_cases hh : r.id == id <;> simp [hh]
  show (db.invoices.map (fun r =>
      if r.id == id then { r with status := s } else r)).find? (fun r => r.id == id) = _
  rw [find?_map_invoice_id_preserving db.invoices id _ hpres, h]
  have hid : old.id = id := by simpa using List.find?_some h
  simp [hid]

/-- Claim C5 witness: overwriting a concrete paid invoice with draft. -/
theorem C5_setStatus_unconditional_witness :
    (setInvoiceStatus dbC5w 1 InvoiceStatus.draft).1
        = Except.ok { invPaid with status := InvoiceStatus.draft }
      ∧ ((setInvoiceStatus dbC5w 1 InvoiceStatus.draft).2).invoices.find?
          (fun r => r.id == 1)
        = some { invPaid with status := InvoiceStatus.draft } :=
  C5_setStatus_unconditional dbC5w 1 InvoiceStatus.draft invPaid rfl

/-- Claim C10 (amended: reuse-freedom holds for counters up to 9999): every
operation keeps each organization counter defined and non-decreasing, the
allocator increments it by exactly one, deletion leaves the organizations
untouched, and distinct counters up to 9999 format to distinct numbers;
beyond 9999 LPAD truncation reissues earlier numbers. -/
theorem C10_counter_monotonic (db : Db) (op : Op) (orgId c invId : Nat)
    (h : orgCounter db orgId = some c) :
    (∃ c2, orgCounter (step db op) orgId = some c2 ∧ c ≤ c2)
      ∧ orgCounter (get_next_invoice_number db orgId).2 orgId = some (c + 1)
      ∧ ((deleteInvoice db invId).2).orgs = db.orgs
      ∧ (∀ i j, i < j → j ≤ 9999 → invoiceNumberOf i ≠ invoiceNumberOf j) := by
  refine ⟨?_, (get_next_spec db orgId c h).2, rfl, ?_⟩
  · cases op with
    | create o u inv items =>
      exact orgCounter_bump_ge db _ o orgId c (createInvoice_orgs db o u inv items) h
    | update id inv items =>
      refine ⟨c, ?_, le_refl c⟩
      show orgCounter (updateInvoice db id inv items).2 orgId = some c
      rw [orgCounter_congr db _ orgId (updateInvoice_orgs db id inv items)]
      exact h
    | setStatus id s =>
      refine ⟨c, ?_, le_refl c⟩
      show orgCounter (setInvoiceStatus db id s).2 orgId = some c
      rw [orgCounter_congr db _ orgId (setInvoiceStatus_orgs db id s)]
      exact h
    | delete id =>
      refine ⟨c, ?_, le_refl c⟩
      show orgCounter (deleteInvoice db id).2 orgId = some c
      rw [orgCounter_congr db _ orgId (deleteInvoice_orgs db id)]
      exact h
    | allocate o =>
      exact orgCounter_bump_ge db _ o orgId c rfl h
  · intro i j hij hj hEq
    have := invoiceNumberOf_injOn i j (by omega) hj hEq
    omega

/-- Claim C10 witness: the amended statement at a concrete state and a
delete operation. -/
theorem C10_counter_monotonic_witness :
    (∃ c2, orgCounter (step dbC10w (Op.delete 3)) 1 = some c2 ∧ 5 ≤ c2)
      ∧ orgCounter (get_next_invoice_number dbC10w 1).2 1 = some (5 + 1)
      ∧ ((deleteInvoice dbC10w 3).2).orgs = dbC10w.orgs
      ∧ (∀ i j, i < j → j ≤ 9999 → invoiceNumberOf i ≠ invoiceNumberOf j) :=
  C10_counter_monotonic dbC10w (Op.delete 3) 1 5 3 rfl

/-- Claim C10 counterexample: from a reachable counter state, the value
INV-1000 handed out at counter 1000 is handed out again at counter 10000. -/
theorem C10_number_reissued :
    (allocRun dbC10 1 9001).1[0]? = some (Except.ok (some "INV-1000"))
      ∧ (allocRun dbC10 1 9001).1[9000]? = some (Except.ok (some "INV-1000"))
      ∧ (0 : Nat) ≠ 9000 := by
  have h := (allocRun_spec 9001 dbC10 1 999 rfl).1
  refine ⟨?_, ?_, by norm_num⟩
  · rw [h, List.getElem?_map, List.getElem?_range (by norm_num)]
    simp only [Option.map_some']
    rw [show (999 : Nat) + 0 + 1 = 1000 from by norm_num, invoiceNumberOf_thousand]
  · rw [h, List.getElem?_map, List.getElem?_range (by norm_num)]
    simp only [Option.map_some']
    rw [show (999 : Nat) + 9000 + 1 = 10000 from by norm_num, invoiceNumberOf_tenThousand]
